import Mathlib

/-!
Shallow embedding of the history-store, provider-abstraction and
speech-adapter layer of `src/advanced_translator.py`.

External collaborators (the `json` module's parser, `langdetect.detect`,
the googletrans transport, the OpenAI chat endpoint, gTTS, and the Google
speech-recognition backend) are modelled as explicit oracle parameters or
as abstract outcome values; the control flow around them is translated
from the Python source.  The history file is modelled at the level the
code observes it: absent, empty, unparseable, or parsed to a JSON value
(`json.dumps` followed by `json.loads` is the identity on the values the
program writes).  Python exceptions that the source may raise or swallow
are made explicit with `Except`.
-/

set_option autoImplicit false

namespace AdvancedTranslator

/-- JSON values as decoded by Python's `json` module.  Floating-point
numbers are omitted: the history code stores only strings, and the claims
about hand-edited content need only the constructors' shapes. -/
inductive Json where
  | null
  | bool (b : Bool)
  | num (n : Int)
  | str (s : String)
  | arr (elems : List Json)
  | obj (fields : List (String × Json))
  deriving Repr

/-- The Python exceptions that can escape the history-store functions:
`TypeError` from slicing a non-subscriptable `json.loads` result, and
`AttributeError` from calling `.append` on a non-list result.  (The code
catches `json.JSONDecodeError` and `OSError`, so those never escape.) -/
inductive PyError where
  | typeError
  | attributeError
  deriving Repr, DecidableEq

/-- The state of the history file as the code observes it:
absent, existing but empty, existing with content that `json.loads`
rejects, or existing with content that parses to the JSON value `j`. -/
inductive FileState where
  | absent
  | empty
  | invalid
  | valid (j : Json)
  deriving Repr

/-- Python's list slice `xs[-limit:]`: since `-0 == 0`, `limit = 0` gives
`xs[0:] = xs`; for `limit > 0` it is the last `min limit xs.length`
elements. -/
def pyListSliceLast (xs : List Json) (limit : Nat) : List Json :=
  if limit = 0 then xs else xs.drop (xs.length - limit)

/-- Python's string slice `s[-limit:]` (same convention as the list slice). -/
def pyStrSliceLast (s : String) (limit : Nat) : String :=
  if limit = 0 then s else ⟨s.data.drop (s.data.length - limit)⟩

/-- Python's `v[-limit:]` applied to a `json.loads` result: lists and
strings support slicing; an int, dict, bool or `None` raises `TypeError`. -/
def pySliceLast (v : Json) (limit : Nat) : Except PyError Json :=
  match v with
  | .arr xs => .ok (.arr (pyListSliceLast xs limit))
  | .str s => .ok (.str (pyStrSliceLast s limit))
  | _ => .error .typeError

/-- `load_history(limit)`: returns `[]` when the file does not exist;
otherwise reads the text and evaluates `json.loads(content)[-limit:]`,
returning `[]` when `json.JSONDecodeError` or `OSError` is raised (an
empty file makes `json.loads` raise `JSONDecodeError`).  A `TypeError`
from the slice is not caught and escapes. -/
def load_history (st : FileState) (limit : Nat) : Except PyError Json :=
  match st with
  | .absent => .ok (.arr [])
  | .empty => .ok (.arr [])
  | .invalid => .ok (.arr [])
  | .valid j => pySliceLast j limit

/-- The `entry` dict literal built inside `save_history`; `timestamp`
stands for `datetime.utcnow().isoformat() + "Z"` (the external clock). -/
def historyEntry (timestamp src_lang dest_lang src_text dest_text provider : String) : Json :=
  .obj [("timestamp", .str timestamp), ("src_lang", .str src_lang),
        ("dest_lang", .str dest_lang), ("src_text", .str src_text),
        ("dest_text", .str dest_text), ("provider", .str provider)]

/-- `save_history`: touches the file (an absent file becomes empty), reads
it, sets `data = json.loads(content) if content else []` with
`JSONDecodeError`/`OSError` mapped to `[]`, then runs `data.append(entry)`
and rewrites the file with `json.dumps(data)`.  When the parsed content is
not a list, `.append` raises an uncaught `AttributeError`. -/
def save_history (st : FileState)
    (timestamp src_lang dest_lang src_text dest_text provider : String) :
    Except PyError FileState :=
  let entry := historyEntry timestamp src_lang dest_lang src_text dest_text provider
  match st with
  | .valid (.arr xs) => .ok (.valid (.arr (xs ++ [entry])))
  | .valid _ => .error .attributeError
  | _ => .ok (.valid (.arr [entry]))

/-- The six arguments of one `save_history` call. -/
structure TranslationArgs where
  timestamp : String
  src_lang : String
  dest_lang : String
  src_text : String
  dest_text : String
  provider : String
  deriving Repr

/-- The record `save_history` appends for the given arguments. -/
def entryOf (r : TranslationArgs) : Json :=
  historyEntry r.timestamp r.src_lang r.dest_lang r.src_text r.dest_text r.provider

/-- Iterated `save_history`, one call per element, stopping at the first
escaped exception. -/
def save_many : FileState → List TranslationArgs → Except PyError FileState
  | st, [] => .ok st
  | st, r :: rs =>
    match save_history st r.timestamp r.src_lang r.dest_lang r.src_text r.dest_text r.provider with
    | .ok st' => save_many st' rs
    | .error e => .error e

/-- The TranslationRecord schema: a JSON object with exactly the six
history fields, in the order `save_history` writes them, each a string. -/
def isRecord : Json → Bool
  | .obj [("timestamp", .str _), ("src_lang", .str _), ("dest_lang", .str _),
          ("src_text", .str _), ("dest_text", .str _), ("provider", .str _)] => true
  | _ => false

/-- The provider errors of the spec's taxonomy: `UnsupportedLanguageError`
is the `ValueError("Language not supported: ...")` raised by
`GoogleProvider.translate`; `ProviderRequestError` is a failure of the
external transport (googletrans request / OpenAI `ChatCompletion.create`). -/
inductive TranslateError where
  | unsupportedLanguage (dest_lang : String)
  | providerRequest (msg : String)
  deriving Repr, DecidableEq

/-- The key set of `googletrans.LANGUAGES` (the external language table
the code imports as `GOOGLE_LANGUAGES` and tests `dest_lang` against). -/
def GOOGLE_LANGUAGES : List String :=
  ["af", "sq", "am", "ar", "hy", "az", "eu", "be", "bn", "bs", "bg", "ca",
   "ceb", "ny", "zh-cn", "zh-tw", "co", "hr", "cs", "da", "nl", "en", "eo",
   "et", "tl", "fi", "fr", "fy", "gl", "ka", "de", "el", "gu", "ht", "ha",
   "haw", "iw", "he", "hi", "hmn", "hu", "is", "ig", "id", "ga", "it", "ja",
   "jw", "kn", "kk", "km", "ko", "ku", "ky", "lo", "la", "lv", "lt", "lb",
   "mk", "mg", "ms", "ml", "mt", "mi", "mr", "mn", "my", "ne", "no", "or",
   "ps", "fa", "pl", "pt", "pa", "ro", "ru", "sm", "gd", "sr", "st", "sn",
   "sd", "si", "sk", "sl", "so", "es", "su", "sw", "sv", "tg", "ta", "te",
   "th", "tr", "uk", "ur", "ug", "uz", "vi", "cy", "xh", "yi", "yo", "zu"]

/-- `GoogleProvider.translate(text, dest_lang)`: runs
`src_lang = detect(text)`, raises `ValueError` (the spec's
`UnsupportedLanguageError`) when `dest_lang not in GOOGLE_LANGUAGES`, and
otherwise makes one call to the googletrans transport, whose failure is
the spec's `ProviderRequestError`; on success it returns
`(src_lang, result.text)`.  `detect` models `langdetect.detect` and
`transport text src dest` models `self.translator.translate(...)`. -/
def GoogleProvider.translate (detect : String → String)
    (transport : String → String → String → Except String String)
    (text dest_lang : String) : Except TranslateError (String × String) :=
  let src_lang := detect text
  if dest_lang ∈ GOOGLE_LANGUAGES then
    match transport text src_lang dest_lang with
    | .ok t => .ok (src_lang, t)
    | .error e => .error (.providerRequest e)
  else
    .error (.unsupportedLanguage dest_lang)

/-- Python's `str.strip()`: drop whitespace from both ends (over the
character list; the inputs in play are ASCII). -/
def pyStrip (s : String) : String :=
  ⟨((s.data.dropWhile Char.isWhitespace).reverse.dropWhile Char.isWhitespace).reverse⟩

/-- The prompt string `OpenAIProvider.translate` builds. -/
def openaiPrompt (src_lang dest_lang text : String) : String :=
  "Translate the following text from " ++ src_lang ++ " to " ++ dest_lang ++
    ". Do not explain, just reply with the translated text.\n\n" ++ text

/-- `OpenAIProvider.translate(text, dest_lang)`: runs
`src_lang = detect(text)`, builds the fixed-shape prompt, makes one call
to `ChatCompletion.create` (modelled by `chat model prompt`, whose failure
is the spec's `ProviderRequestError`), and returns
`(src_lang, response.choices[0].message.content.strip())`. -/
def OpenAIProvider.translate (detect : String → String)
    (chat : String → String → Except String String)
    (model text dest_lang : String) : Except TranslateError (String × String) :=
  let src_lang := detect text
  let prompt := openaiPrompt src_lang dest_lang text
  match chat model prompt with
  | .ok content => .ok (src_lang, pyStrip content)
  | .error e => .error (.providerRequest e)

/-- `speak_text(text, lang)`: one gTTS synthesis (construction, save to a
temp file and read back, modelled as a single backend call returning the
mp3 bytes), with `except Exception: return b""`.  The language code is
passed to gTTS unchanged. -/
def speak_text (gtts : String → String → Except String (List Nat))
    (text lang : String) : List Nat :=
  match gtts text lang with
  | .ok audio_bytes => audio_bytes
  | .error _ => []

/-- The three outcomes of `recognizer.recognize_google`: a transcript, an
`sr.UnknownValueError` (silence / unintelligible audio), or an
`sr.RequestError` carrying a message. -/
inductive RecogOutcome where
  | transcript (s : String)
  | unknownValue
  | requestError (msg : String)
  deriving Repr, DecidableEq

/-- The `lang_map` dict literal inside `transcribe_audio`. -/
def lang_map : List (String × String) :=
  [("en", "en-US"), ("hi", "hi-IN"), ("es", "es-ES"), ("fr", "fr-FR"),
   ("de", "de-DE"), ("zh", "zh-CN"), ("ja", "ja-JP"), ("ko", "ko-KR"),
   ("it", "it-IT"), ("ru", "ru-RU")]

/-- Python's `str.lower()` (over the character list; the language hints in
play are ASCII). -/
def pyLower (s : String) : String :=
  ⟨s.data.map Char.toLower⟩

/-- Python's `dict.get(key, default)` on an association list. -/
def dictGet (m : List (String × String)) (key default : String) : String :=
  match m.lookup key with
  | some v => v
  | none => default

/-- `lang_map.get(lang_code.lower(), "en-US")`. -/
def recogLangOf (lang_code : String) : String :=
  dictGet lang_map (pyLower lang_code) "en-US"

/-- `transcribe_audio(file_path, lang_code)` after the audio has been
recorded from the file: looks up the recognition locale and calls
`recognize_google` (modelled by `recognize`, applied to the locale, the
audio being fixed inside the oracle), returning the transcript, `""` on
`sr.UnknownValueError`, or `"Speech recognition failed: " + str(e)` on
`sr.RequestError e`. -/
def transcribe_audio (recognize : String → RecogOutcome) (lang_code : String) : String :=
  let recog_lang := recogLangOf lang_code
  match recognize recog_lang with
  | .transcript s => s
  | .unknownValue => ""
  | .requestError e => "Speech recognition failed: " ++ e

/-! Helper lemmas about the Python slice. -/

theorem pyListSliceLast_of_le (xs : List Json) (limit : Nat) (h : xs.length ≤ limit) :
    pyListSliceLast xs limit = xs := by
  unfold pyListSliceLast
  split
  · rfl
  · rw [Nat.sub_eq_zero_of_le h, List.drop_zero]

theorem pyListSliceLast_append_one (xs : List Json) (e : Json) :
    pyListSliceLast (xs ++ [e]) 1 = [e] := by
  have h : (xs ++ [e]).length - 1 = xs.length := by simp
  unfold pyListSliceLast
  rw [if_neg (by decide), h, List.drop_left]

theorem save_many_arr (rs : List TranslationArgs) (xs : List Json) :
    save_many (.valid (.arr xs)) rs = .ok (.valid (.arr (xs ++ rs.map entryOf))) := by
  induction rs generalizing xs with
  | nil => simp [save_many]
  | cons r rs ih =>
    simp [save_many, save_history, entryOf, ih, List.append_assoc]

/-! The claims. -/

/-- C1 counterexample: a file whose content is the valid JSON text `5`
(so `json.loads` succeeds with a non-subscriptable value) makes
`load_history` raise an uncaught `TypeError` from `json.loads(content)[-limit:]`,
contradicting "load_history ... never raises an exception" for valid JSON
content. -/
theorem C1_counterexample :
    load_history (.valid (.num 5)) 20 = .error .typeError := rfl

/-- C1 (amended): `load_history` returns normally — the empty list — when
the file is absent, empty, or unparseable; it also returns normally when
the content parses to a JSON array (the slice of the array) or to a JSON
string (Python slices strings too); but when the content parses to any
other JSON value (number, object, boolean, null) an uncaught `TypeError`
escapes. -/
theorem C1_load_history_total_cases (st : FileState) (limit : Nat) :
    (load_history .absent limit = .ok (.arr []) ∧
     load_history .empty limit = .ok (.arr []) ∧
     load_history .invalid limit = .ok (.arr [])) ∧
    (∀ xs, st = .valid (.arr xs) →
      load_history st limit = .ok (.arr (pyListSliceLast xs limit))) ∧
    (∀ s, st = .valid (.str s) →
      load_history st limit = .ok (.str (pyStrSliceLast s limit))) ∧
    (∀ j, st = .valid j → (∀ xs, j ≠ Json.arr xs) → (∀ s, j ≠ Json.str s) →
      load_history st limit = .error .typeError) := by
  refine ⟨⟨rfl, rfl, rfl⟩, ?_, ?_, ?_⟩
  · rintro xs rfl; rfl
  · rintro s rfl; rfl
  · rintro j rfl hxs hs
    cases j with
    | null => rfl
    | bool b => rfl
    | num n => rfl
    | str s2 => exact absurd rfl (hs s2)
    | arr xs2 => exact absurd rfl (hxs xs2)
    | obj f => rfl

theorem C1_witness :
    load_history (.valid .null) 20 = .error .typeError ∧
    load_history (.valid (.arr [.num 1])) 20 = .ok (.arr (pyListSliceLast [.num 1] 20)) :=
  ⟨(C1_load_history_total_cases (.valid .null) 20).2.2.2 .null rfl
      (fun _ h => Json.noConfusion h) (fun _ h => Json.noConfusion h),
   (C1_load_history_total_cases (.valid (.arr [.num 1])) 20).2.1 [.num 1] rfl⟩

/-- C2 counterexample: when the starting file content is the valid JSON
object `{}`, `save_history` raises an uncaught `AttributeError` from
`data.append(entry)` (a dict has no `append`), so "append followed by
load_history(limit=1) returns the just-appended record" fails for this
starting state. -/
theorem C2_counterexample :
    save_history (.valid (.obj [])) "2025-01-01T00:00:00Z" "en" "fr" "hi" "salut" "Google"
      = .error .attributeError := rfl

/-- C2 (amended): for every starting state on which append succeeds —
absent, empty, unparseable, or a valid JSON array — `save_history`
followed by `load_history(limit=1)` returns exactly the just-appended
record; and appending N records starting from an absent file then loading
with `limit ≥ N` returns all N records in insertion order. -/
theorem C2_append_load_roundtrip (st : FileState) (r : TranslationArgs)
    (rs : List TranslationArgs) (limit : Nat)
    (hst : ∀ j, st = .valid j → ∃ xs, j = Json.arr xs) (hlim : rs.length ≤ limit) :
    (∃ st2, save_history st r.timestamp r.src_lang r.dest_lang r.src_text r.dest_text r.provider
        = .ok st2 ∧ load_history st2 1 = .ok (.arr [entryOf r])) ∧
    (∃ st3, save_many .absent rs = .ok st3 ∧
        load_history st3 limit = .ok (.arr (rs.map entryOf))) := by
  constructor
  · cases st with
    | absent => exact ⟨_, rfl, rfl⟩
    | empty => exact ⟨_, rfl, rfl⟩
    | invalid => exact ⟨_, rfl, rfl⟩
    | valid j =>
      obtain ⟨xs, rfl⟩ := hst j rfl
      refine ⟨_, rfl, ?_⟩
      simp only [load_history, pySliceLast]
      rw [pyListSliceLast_append_one]
      rfl
  · cases rs with
    | nil => exact ⟨.absent, rfl, rfl⟩
    | cons r0 rs0 =>
      refine ⟨.valid (.arr ([entryOf r0] ++ rs0.map entryOf)), ?_, ?_⟩
      · show save_many .absent (r0 :: rs0) = _
        simp only [save_many, save_history]
        exact save_many_arr rs0 [entryOf r0]
      · simp only [load_history, pySliceLast]
        rw [pyListSliceLast_of_le]
        · simp [entryOf]
        · simpa using hlim

theorem C2_witness :
    (∃ st2, save_history .absent "t1" "en" "fr" "hi" "salut" "Google" = .ok st2 ∧
        load_history st2 1 = .ok (.arr [entryOf ⟨"t1", "en", "fr", "hi", "salut", "Google"⟩])) ∧
    (∃ st3, save_many .absent [⟨"t1", "en", "fr", "hi", "salut", "Google"⟩,
        ⟨"t2", "en", "de", "hi", "hallo", "Google"⟩] = .ok st3 ∧
        load_history st3 20 = .ok (.arr
          ([⟨"t1", "en", "fr", "hi", "salut", "Google"⟩,
            ⟨"t2", "en", "de", "hi", "hallo", "Google"⟩].map entryOf))) :=
  C2_append_load_roundtrip .absent ⟨"t1", "en", "fr", "hi", "salut", "Google"⟩
    [⟨"t1", "en", "fr", "hi", "salut", "Google"⟩, ⟨"t2", "en", "de", "hi", "hallo", "Google"⟩]
    20 (fun _ h => FileState.noConfusion h) (by decide)

/-- C3 counterexample: when the existing file content is the valid JSON
text `5`, `save_history` does not treat it as an empty list — parsing
succeeds, and `data.append(entry)` raises an uncaught `AttributeError`,
contradicting "append never raises regardless of the prior file
content". -/
theorem C3_counterexample :
    save_history (.valid (.num 5)) "2025-01-01T00:00:00Z" "en" "fr" "hi" "salut" "Google"
      = .error .attributeError := rfl

/-- C3 (amended): `save_history` treats an absent, empty or unparseable
file as an empty list and writes the one-record array; on a valid JSON
array it appends the record and rewrites the full array; but on valid
JSON that is not an array, `data.append` raises an uncaught
`AttributeError` — the parse-failure fallback does not cover this case. -/
theorem C3_save_history_cases (st : FileState) (t sl dl sx dx p : String) :
    (st = .absent ∨ st = .empty ∨ st = .invalid →
      save_history st t sl dl sx dx p
        = .ok (.valid (.arr [historyEntry t sl dl sx dx p]))) ∧
    (∀ xs, st = .valid (.arr xs) →
      save_history st t sl dl sx dx p
        = .ok (.valid (.arr (xs ++ [historyEntry t sl dl sx dx p])))) ∧
    (∀ j, st = .valid j → (∀ xs, j ≠ Json.arr xs) →
      save_history st t sl dl sx dx p = .error .attributeError) := by
  refine ⟨?_, ?_, ?_⟩
  · rintro (rfl | rfl | rfl) <;> rfl
  · rintro xs rfl; rfl
  · rintro j rfl hxs
    cases j with
    | null => rfl
    | bool b => rfl
    | num n => rfl
    | str s => rfl
    | arr xs2 => exact absurd rfl (hxs xs2)
    | obj f => rfl

theorem C3_witness :
    save_history .empty "t" "en" "fr" "hi" "salut" "Google"
      = .ok (.valid (.arr [historyEntry "t" "en" "fr" "hi" "salut" "Google"])) ∧
    save_history (.valid (.bool true)) "t" "en" "fr" "hi" "salut" "Google"
      = .error .attributeError :=
  ⟨(C3_save_history_cases .empty "t" "en" "fr" "hi" "salut" "Google").1
      (Or.inr (Or.inl rfl)),
   (C3_save_history_cases (.valid (.bool true)) "t" "en" "fr" "hi" "salut" "Google").2.2
      (.bool true) rfl (fun _ h => Json.noConfusion h)⟩

/-- C4 counterexample: a successful append onto the valid JSON array `[1]`
yields a file whose array still contains `1`, which is not an object with
the six record fields — so "after every successful append the file
contains a JSON array of objects each having exactly the fields ..." fails
when the prior array held non-schema elements. -/
theorem C4_counterexample :
    save_history (.valid (.arr [.num 1])) "t0" "en" "fr" "hi" "salut" "Google"
      = .ok (.valid (.arr [.num 1, historyEntry "t0" "en" "fr" "hi" "salut" "Google"])) ∧
    isRecord (.num 1) = false := ⟨rfl, rfl⟩

/-- C4 (amended): after **every** successful append, from any starting
state, the file holds a valid JSON array equal to the prior array's
elements — unchanged and in order, as a prefix; none when the prior
content was not a valid array (absent, empty, or unparseable priors
yield the one-record array) — followed by the new record, which is an
object with exactly the six schema fields; and when every prior element
conformed to the schema, every element of the new array does. -/
theorem C4_append_preserves_records (st : FileState) (xs : List Json)
    (t sl dl sx dx p : String) :
    isRecord (historyEntry t sl dl sx dx p) = true ∧
    save_history (.valid (.arr xs)) t sl dl sx dx p
      = .ok (.valid (.arr (xs ++ [historyEntry t sl dl sx dx p]))) ∧
    (∀ st2, save_history st t sl dl sx dx p = .ok st2 →
      ∃ prior, st2 = .valid (.arr (prior ++ [historyEntry t sl dl sx dx p])) ∧
        (st = .valid (.arr prior) ∨ (prior = [] ∧ ∀ ys, st ≠ .valid (.arr ys))) ∧
        ((∀ j ∈ prior, isRecord j = true) →
          ∀ j ∈ prior ++ [historyEntry t sl dl sx dx p], isRecord j = true)) := by
  have hsing : ∀ j ∈ ([] : List Json) ++ [historyEntry t sl dl sx dx p], isRecord j = true := by
    intro j hj
    rcases List.mem_singleton.1 hj with rfl
    rfl
  refine ⟨rfl, rfl, ?_⟩
  intro st2 h
  cases st with
  | absent =>
    have h2 : FileState.valid (Json.arr [historyEntry t sl dl sx dx p]) = st2 :=
      Except.ok.inj h
    exact ⟨[], h2.symm, Or.inr ⟨rfl, fun ys hc => FileState.noConfusion hc⟩, fun _ => hsing⟩
  | empty =>
    have h2 : FileState.valid (Json.arr [historyEntry t sl dl sx dx p]) = st2 :=
      Except.ok.inj h
    exact ⟨[], h2.symm, Or.inr ⟨rfl, fun ys hc => FileState.noConfusion hc⟩, fun _ => hsing⟩
  | invalid =>
    have h2 : FileState.valid (Json.arr [historyEntry t sl dl sx dx p]) = st2 :=
      Except.ok.inj h
    exact ⟨[], h2.symm, Or.inr ⟨rfl, fun ys hc => FileState.noConfusion hc⟩, fun _ => hsing⟩
  | valid j =>
    cases j with
    | arr ys =>
      have h2 : FileState.valid (Json.arr (ys ++ [historyEntry t sl dl sx dx p])) = st2 :=
        Except.ok.inj h
      refine ⟨ys, h2.symm, Or.inl rfl, ?_⟩
      intro hprior j2 hj
      rcases List.mem_append.1 hj with h1 | h1
      · exact hprior j2 h1
      · rcases List.mem_singleton.1 h1 with rfl
        rfl
    | null => exact Except.noConfusion h
    | bool b => exact Except.noConfusion h
    | num n => exact Except.noConfusion h
    | str s => exact Except.noConfusion h
    | obj f => exact Except.noConfusion h

theorem C4_witness :
    ∃ prior, FileState.valid (.arr [historyEntry "t" "en" "fr" "hi" "salut" "Google"])
        = FileState.valid (.arr (prior ++ [historyEntry "t" "en" "fr" "hi" "salut" "Google"])) ∧
      (FileState.empty = .valid (.arr prior) ∨
        (prior = [] ∧ ∀ ys, FileState.empty ≠ .valid (.arr ys))) ∧
      ((∀ j ∈ prior, isRecord j = true) →
        ∀ j ∈ prior ++ [historyEntry "t" "en" "fr" "hi" "salut" "Google"], isRecord j = true) :=
  (C4_append_preserves_records .empty [] "t" "en" "fr" "hi" "salut" "Google").2.2
    (.valid (.arr [historyEntry "t" "en" "fr" "hi" "salut" "Google"])) rfl

/-- C10: on a file holding a valid JSON array of n records,
`load_history(limit=0)` returns all n records (`data[-0:]` is the whole
list), and for `limit ≥ 1` it returns the last `min limit n` records —
the number returned is not bounded by `limit` at `limit = 0`. -/
theorem C10_load_history_limit (xs : List Json) (limit : Nat) (hpos : 1 ≤ limit) :
    load_history (.valid (.arr xs)) 0 = .ok (.arr xs) ∧
    load_history (.valid (.arr xs)) limit = .ok (.arr (xs.drop (xs.length - limit))) ∧
    (xs.drop (xs.length - limit)).length = min limit xs.length ∧
    xs.take (xs.length - limit) ++ xs.drop (xs.length - limit) = xs := by
  refine ⟨rfl, ?_, ?_, List.take_append_drop _ _⟩
  · simp only [load_history, pySliceLast, pyListSliceLast]
    rw [if_neg (by omega)]
  · rw [List.length_drop]
    omega

theorem C10_witness :
    load_history (.valid (.arr [.num 1, .num 2, .num 3])) 0
      = .ok (.arr [.num 1, .num 2, .num 3]) ∧
    load_history (.valid (.arr [.num 1, .num 2, .num 3])) 2
      = .ok (.arr ([Json.num 1, .num 2, .num 3].drop
          ([Json.num 1, .num 2, .num 3].length - 2))) ∧
    (([Json.num 1, .num 2, .num 3].drop ([Json.num 1, .num 2, .num 3].length - 2)).length
      = min 2 [Json.num 1, .num 2, .num 3].length) ∧
    [Json.num 1, .num 2, .num 3].take ([Json.num 1, .num 2, .num 3].length - 2)
        ++ [Json.num 1, .num 2, .num 3].drop ([Json.num 1, .num 2, .num 3].length - 2)
      = [Json.num 1, .num 2, .num 3] :=
  C10_load_history_limit [.num 1, .num 2, .num 3] 2 (by decide)

/-- C5: for every non-empty input text, `GoogleProvider.translate` raises
the spec's `UnsupportedLanguageError` (the `ValueError`) exactly when
`dest_lang` is outside the provider's known language set, and raises
`ProviderRequestError` when `dest_lang` is valid but the single transport
call fails; in both cases the call aborts with that error. -/
theorem C5_google_translate_errors (detect : String → String)
    (transport : String → String → String → Except String String)
    (text dest_lang : String) (htext : text ≠ "") :
    ((∃ d, GoogleProvider.translate detect transport text dest_lang
        = .error (.unsupportedLanguage d)) ↔ dest_lang ∉ GOOGLE_LANGUAGES) ∧
    (∀ e, dest_lang ∈ GOOGLE_LANGUAGES →
      transport text (detect text) dest_lang = .error e →
      GoogleProvider.translate detect transport text dest_lang
        = .error (.providerRequest e)) := by
  constructor
  · constructor
    · rintro ⟨d, hd⟩ hmem
      simp only [GoogleProvider.translate] at hd
      rw [if_pos hmem] at hd
      cases htr : transport text (detect text) dest_lang <;> rw [htr] at hd <;> simp at hd
    · intro hmem
      refine ⟨dest_lang, ?_⟩
      simp only [GoogleProvider.translate]
      rw [if_neg hmem]
  · intro e hmem htr
    simp only [GoogleProvider.translate]
    rw [if_pos hmem, htr]

theorem C5_witness :
    (∃ d, GoogleProvider.translate (fun _ => "en") (fun _ _ _ => .error "down") "hi" "xx-not-real"
        = .error (.unsupportedLanguage d)) ∧
    GoogleProvider.translate (fun _ => "en") (fun _ _ _ => .error "down") "hi" "fr"
      = .error (.providerRequest "down") :=
  ⟨(C5_google_translate_errors (fun _ => "en") (fun _ _ _ => .error "down") "hi" "xx-not-real"
      (by decide)).1.mpr (by decide),
   (C5_google_translate_errors (fun _ => "en") (fun _ _ _ => .error "down") "hi" "fr"
      (by decide)).2 "down" (by decide) rfl⟩

/-- C6 counterexample: neither provider checks the backend's text for
non-emptiness; with a chat backend answering whitespace only,
`OpenAIProvider.translate` returns successfully with an empty
translated_text, contradicting "never returns successfully with an empty
translated_text". -/
theorem C6_counterexample :
    OpenAIProvider.translate (fun _ => "en") (fun _ _ => .ok "  ") "gpt-4o" "hello" "fr"
      = .ok ("en", "") := rfl

/-- C6 (amended): each provider either aborts with one of the two
enumerated errors or returns successfully with translated_text equal to
the backend's response verbatim (stripped, for the LLM provider) — no
non-emptiness check is performed, so the result is non-empty exactly when
the backend's (stripped) response is. -/
theorem C6_translate_outcomes (detect : String → String)
    (transport : String → String → String → Except String String)
    (chat : String → String → Except String String) (model text dest_lang : String) :
    ((∃ t, GoogleProvider.translate detect transport text dest_lang = .ok (detect text, t) ∧
        transport text (detect text) dest_lang = .ok t) ∨
     (∃ d, GoogleProvider.translate detect transport text dest_lang
        = .error (.unsupportedLanguage d)) ∨
     (∃ e, GoogleProvider.translate detect transport text dest_lang
        = .error (.providerRequest e))) ∧
    ((∃ c, OpenAIProvider.translate detect chat model text dest_lang
        = .ok (detect text, pyStrip c) ∧
        chat model (openaiPrompt (detect text) dest_lang text) = .ok c) ∨
     (∃ e, OpenAIProvider.translate detect chat model text dest_lang
        = .error (.providerRequest e))) := by
  constructor
  · by_cases hmem : dest_lang ∈ GOOGLE_LANGUAGES
    · cases htr : transport text (detect text) dest_lang with
      | ok t =>
        refine Or.inl ⟨t, ?_, rfl⟩
        simp only [GoogleProvider.translate]
        rw [if_pos hmem, htr]
      | error e =>
        refine Or.inr (Or.inr ⟨e, ?_⟩)
        simp only [GoogleProvider.translate]
        rw [if_pos hmem, htr]
    · refine Or.inr (Or.inl ⟨dest_lang, ?_⟩)
      simp only [GoogleProvider.translate]
      rw [if_neg hmem]
  · cases hc : chat model (openaiPrompt (detect text) dest_lang text) with
    | ok c =>
      refine Or.inl ⟨c, ?_, rfl⟩
      simp only [OpenAIProvider.translate]
      rw [hc]
    | error e =>
      refine Or.inr ⟨e, ?_⟩
      simp only [OpenAIProvider.translate]
      rw [hc]

/-- C7 counterexample: `speak_text` has no language lookup table and no
two-letter-prefix fallback — the code is handed to gTTS unchanged.  With
a backend accepting exactly the prefix "ab", the claimed fallback would
synthesize audio for the unmapped code "ab-cd"; the actual function
passes "ab-cd" through, the backend fails, and the result is empty. -/
theorem C7_counterexample :
    speak_text (fun _ l => if l = "ab" then .ok [1] else .error "unsupported")
        "hello" "ab-cd" = [] ∧
    ([] : List Nat) ≠ [1] := ⟨rfl, by decide⟩

/-- C7 (amended): `speak_text` passes the text and language code to the
synthesis backend unchanged; it returns the backend's audio bytes on
success and empty bytes on any backend failure, and (being total) never
raises. -/
theorem C7_speak_text_fallback (gtts : String → String → Except String (List Nat))
    (text lang : String) :
    (∀ audio, gtts text lang = .ok audio → speak_text gtts text lang = audio) ∧
    (∀ e, gtts text lang = .error e → speak_text gtts text lang = []) := by
  constructor <;> intro x hx <;> simp only [speak_text] <;> rw [hx]

theorem C7_witness :
    speak_text (fun _ _ => .error "backend down") "hola" "es" = [] ∧
    speak_text (fun _ _ => .ok [7, 7]) "hola" "es" = [7, 7] :=
  ⟨(C7_speak_text_fallback (fun _ _ => .error "backend down") "hola" "es").2 "backend down" rfl,
   (C7_speak_text_fallback (fun _ _ => .ok [7, 7]) "hola" "es").1 [7, 7] rfl⟩

/-- C8: `transcribe_audio` maps the lowercased language hint through the
static `lang_map` table, defaulting to "en-US" for every hint not in the
table, and produces exactly one of three outcomes: the backend's
transcript, `""` on `sr.UnknownValueError`, or the error string
`"Speech recognition failed: " + e` on `sr.RequestError e` — neither
backend failure mode escapes as an exception. -/
theorem C8_transcribe_audio_outcomes (recognize : String → RecogOutcome) (lang_code : String) :
    (∀ v, lang_map.lookup (pyLower lang_code) = some v → recogLangOf lang_code = v) ∧
    (lang_map.lookup (pyLower lang_code) = none → recogLangOf lang_code = "en-US") ∧
    (∀ s, recognize (recogLangOf lang_code) = .transcript s →
      transcribe_audio recognize lang_code = s) ∧
    (recognize (recogLangOf lang_code) = .unknownValue →
      transcribe_audio recognize lang_code = "") ∧
    (∀ e, recognize (recogLangOf lang_code) = .requestError e →
      transcribe_audio recognize lang_code = "Speech recognition failed: " ++ e) := by
  refine ⟨?_, ?_, ?_, ?_, ?_⟩
  · intro v hv
    simp only [recogLangOf, dictGet]
    rw [hv]
  · intro hv
    simp only [recogLangOf, dictGet]
    rw [hv]
  · intro s hs
    simp only [transcribe_audio]
    rw [hs]
  · intro hs
    simp only [transcribe_audio]
    rw [hs]
  · intro e he
    simp only [transcribe_audio]
    rw [he]

theorem C8_witness :
    recogLangOf "xx" = "en-US" ∧
    recogLangOf "FR" = "fr-FR" ∧
    transcribe_audio (fun _ => .requestError "bad key") "xx"
      = "Speech recognition failed: " ++ "bad key" :=
  ⟨(C8_transcribe_audio_outcomes (fun _ => .requestError "bad key") "xx").2.1 rfl,
   (C8_transcribe_audio_outcomes (fun _ => .transcript "ok") "FR").1 "fr-FR" rfl,
   (C8_transcribe_audio_outcomes (fun _ => .requestError "bad key") "xx").2.2.2.2 "bad key" rfl⟩

/-- C9 counterexample: `OpenAIProvider.translate` does not report the
sentinel "auto" — it returns the language computed by `detect(text)`
(here "en"), exactly like the Google variant, so the claimed asymmetry is
absent from the code. -/
theorem C9_counterexample :
    OpenAIProvider.translate (fun _ => "en") (fun _ _ => .ok "bonjour") "gpt-4o" "hello" "fr"
      = .ok ("en", "bonjour") ∧ ("en" : String) ≠ "auto" := ⟨rfl, by decide⟩

/-- C9 (amended): both providers report the detected source language the
same way: every successful result's first component is `detect text`
(the `langdetect.detect` value); neither provider returns the sentinel
"auto" unless detection itself produced it. -/
theorem C9_detected_source_lang (detect : String → String)
    (transport : String → String → String → Except String String)
    (chat : String → String → Except String String) (model text dest_lang : String) :
    (∀ p, GoogleProvider.translate detect transport text dest_lang = .ok p →
      p.1 = detect text) ∧
    (∀ p, OpenAIProvider.translate detect chat model text dest_lang = .ok p →
      p.1 = detect text) := by
  constructor
  · intro p hp
    by_cases hmem : dest_lang ∈ GOOGLE_LANGUAGES
    · cases htr : transport text (detect text) dest_lang with
      | ok t =>
        simp only [GoogleProvider.translate] at hp
        rw [if_pos hmem, htr] at hp
        simp only [Except.ok.injEq] at hp
        rw [← hp]
      | error e =>
        simp only [GoogleProvider.translate] at hp
        rw [if_pos hmem, htr] at hp
        exact absurd hp (by simp)
    · simp only [GoogleProvider.translate] at hp
      rw [if_neg hmem] at hp
      exact absurd hp (by simp)
  · intro p hp
    cases hc : chat model (openaiPrompt (detect text) dest_lang text) with
    | ok c =>
      simp only [OpenAIProvider.translate] at hp
      rw [hc] at hp
      simp only [Except.ok.injEq] at hp
      rw [← hp]
    | error e =>
      simp only [OpenAIProvider.translate] at hp
      rw [hc] at hp
      exact absurd hp (by simp)

theorem C9_witness :
    (("fr", "g") : String × String).1 = (fun _ : String => "fr") "salut" ∧
    (("fr", "x") : String × String).1 = (fun _ : String => "fr") "salut" :=
  ⟨(C9_detected_source_lang (fun _ => "fr") (fun _ _ _ => .ok "g") (fun _ _ => .ok "x")
      "gpt-4o" "salut" "en").1 ("fr", "g") rfl,
   (C9_detected_source_lang (fun _ => "fr") (fun _ _ _ => .ok "g") (fun _ _ => .ok "x")
      "gpt-4o" "salut" "en").2 ("fr", "x") rfl⟩

end AdvancedTranslator
